import Mathlib

/-!
Verification of the qexpy core (value/uncertainty model, measurement factory,
and global configuration store) against its specification.

The Python source is shallowly embedded: module-level mutable configuration
becomes explicit state passing over a `Config` structure, Python objects that
can reach the relevant `isinstance` checks become inductive types, printed
error messages and raised exceptions become explicit result fields, and
machine floats are idealised as real numbers together with an explicit
infinity constructor (the only float special value the source inspects).
-/

namespace Qexpy

/-! ## Settings (src/qexpy/settings/settings.py) -/

/-- The `ErrorMethod` enum (settings.py lines 12-15). -/
inductive ErrorMethod where
  | DERIVATIVE
  | MIN_MAX
  | MONTE_CARLO
  deriving DecidableEq

/-- The `PrintStyle` enum (settings.py lines 18-21). -/
inductive PrintStyle where
  | DEFAULT
  | LATEX
  | SCIENTIFIC
  deriving DecidableEq

/-- The `SigFigMode` enum (settings.py lines 24-27). -/
inductive SigFigMode where
  | AUTOMATIC
  | VALUE
  | ERROR
  deriving DecidableEq

/-- The contents of the `config["error_method"]` dictionary slot.  The dict is
heterogeneous: `set_error_method` stores an `ErrorMethod` there, but the buggy
`set_print_style` (line 84) stores a `PrintStyle` into the same slot, so the
slot type is the sum of both enums. -/
inductive EMSlot where
  | em (m : ErrorMethod)
  | ps (p : PrintStyle)
  deriving DecidableEq

/-- The module-level `config` dictionary (settings.py lines 30-37), with the
nested `significant_figures` dict flattened into its two entries. -/
structure Config where
  errorMethod : EMSlot
  printStyle : PrintStyle
  sigFigMode : SigFigMode
  sigFigValue : ℤ
  deriving DecidableEq

/-- The initial value of `config` (settings.py lines 30-37). -/
def defaultConfig : Config :=
  { errorMethod := .em .DERIVATIVE
    printStyle := .DEFAULT
    sigFigMode := .AUTOMATIC
    sigFigValue := 1 }

/-- Python objects that can be passed to the settings setters: integers,
floats (idealised as rationals), strings, members of the two enums, and
anything else (`other`), which every relevant check rejects. -/
inductive SettingInput where
  | int (n : ℤ)
  | float (q : ℚ)
  | str (s : String)
  | enumEM (m : ErrorMethod)
  | enumPS (p : PrintStyle)
  | other
  deriving DecidableEq

/-- Value of a non-empty run of decimal digits. -/
def digitsVal (cs : List Char) : ℕ :=
  cs.foldl (fun acc c => 10 * acc + (c.toNat - 48)) 0

/-- The Python builtin `int` applied to a string: surrounding blanks are
stripped, then an optional sign followed by a non-empty digit run parses as an
integer literal; anything else raises `ValueError` (modelled as `none`). -/
def parseIntLit (s : String) : Option ℤ :=
  let cs := ((s.toList.dropWhile (fun c => c = ' ')).reverse.dropWhile
    (fun c => c = ' ')).reverse
  match cs with
  | [] => none
  | c :: rest =>
    if c = Char.ofNat 45 then
      if rest ≠ [] ∧ rest.all Char.isDigit then some (-(digitsVal rest : ℤ)) else none
    else if c = Char.ofNat 43 then
      if rest ≠ [] ∧ rest.all Char.isDigit then some ((digitsVal rest : ℤ)) else none
    else if (c :: rest).all Char.isDigit then some ((digitsVal (c :: rest) : ℤ))
    else none

/-- Truncation toward zero, which is how the Python builtin `int` converts a
float. -/
def ratTruncate (q : ℚ) : ℤ := if 0 ≤ q then ⌊q⌋ else ⌈q⌉

/-- The Python builtin `int` on a settings input: identity on integers,
truncation on floats, literal parsing on strings; enum members and other
objects raise `TypeError` (modelled as `none`). -/
def pyInt : SettingInput → Option ℤ
  | .int n => some n
  | .float q => some (ratTruncate q)
  | .str s => parseIntLit s
  | _ => none

/-- `reset_default_configuration` (settings.py lines 40-45): writes the four
default values over whatever the current configuration is. -/
def reset_default_configuration (_c : Config) : Config := defaultConfig

/-- `set_error_method` (settings.py lines 48-63).  The returned boolean
records whether the error message was printed (input rejected). -/
def set_error_method (inp : SettingInput) (c : Config) : Config × Bool :=
  match inp with
  | .enumEM m => ({ c with errorMethod := .em m }, false)
  | _ => (c, true)

/-- `set_print_style` (settings.py lines 70-84).  Faithful to the source,
including its defect: on a valid `PrintStyle` input, line 84 executes
`config[ERROR_METHOD] = new_style`, i.e. the style is written into the
error-method slot and the print-style slot is never touched.  The returned
boolean records whether the error message was printed. -/
def set_print_style (inp : SettingInput) (c : Config) : Config × Bool :=
  match inp with
  | .enumPS p => ({ c with errorMethod := .ps p }, false)
  | _ => (c, true)

/-- `get_error_method` (settings.py lines 66-67): returns whatever is in the
`error_method` slot (which the buggy `set_print_style` can fill with a
`PrintStyle`). -/
def get_error_method (c : Config) : EMSlot := c.errorMethod

/-- `get_print_style` (settings.py lines 87-88). -/
def get_print_style (c : Config) : PrintStyle := c.printStyle

/-- `get_sig_fig_mode` (settings.py lines 91-92). -/
def get_sig_fig_mode (c : Config) : SigFigMode := c.sigFigMode

/-- `get_sig_fig_value` (settings.py lines 95-96). -/
def get_sig_fig_value (c : Config) : ℤ := c.sigFigValue

/-- `set_sig_figs_for_value` (settings.py lines 99-107): coerces the input
with `int`; a failed coercion or a non-positive result prints an error and
changes nothing; otherwise the sig-fig value is set and the mode switched to
`VALUE`.  The boolean records whether the error message was printed. -/
def set_sig_figs_for_value (inp : SettingInput) (c : Config) : Config × Bool :=
  match pyInt inp with
  | some n =>
    if n ≤ 0 then (c, true)
    else ({ c with sigFigValue := n, sigFigMode := .VALUE }, false)
  | none => (c, true)

/-- `set_sig_figs_for_error` (settings.py lines 110-118): as
`set_sig_figs_for_value` but switching the mode to `ERROR`. -/
def set_sig_figs_for_error (inp : SettingInput) (c : Config) : Config × Bool :=
  match pyInt inp with
  | some n =>
    if n ≤ 0 then (c, true)
    else ({ c with sigFigValue := n, sigFigMode := .ERROR }, false)
  | none => (c, true)

/-! ## Data model (src/qexpy/data/data.py)

Python floats are idealised as real numbers plus the two infinities; `nan`
never arises in the fragments the claims exercise.  The only float special
value the source inspects is positive infinity (`value[0] == float('inf')`
in the two `_print_value` implementations). -/

/-- A Python float: a finite value (idealised as a real), `float('inf')`, or
`float('-inf')`. -/
inductive PyFloat where
  | fin (x : ℝ)
  | inf
  | ninf

/-- The comparison `f > 0` on a Python float, as used by the `error` setter
(data.py line 137). -/
def PyFloat.pos : PyFloat → Prop
  | .fin x => 0 < x
  | .inf => True
  | .ninf => False

noncomputable instance (x : PyFloat) : Decidable x.pos := Classical.propDecidable _

/-- Python objects that can reach the `isinstance` dispatch in the
`Measurement` factory and the setters: numeric scalars, strings, array-likes
of finite numeric samples, and anything else.  `NUMBER_TYPES` and
`ARRAY_TYPES` live in `qexpy/utils/utils.py`, which is not part of the
sources; modelled from the spec: numeric scalars and array-like sequences of
numeric samples. -/
inductive PyObj where
  | num (x : PyFloat)
  | str (s : String)
  | arr (xs : List ℝ)
  | other

/-- `np.mean` on a list of finite floats: the arithmetic mean. -/
noncomputable def npMean (xs : List ℝ) : ℝ := xs.sum / xs.length

/-- `np.std` on a list of finite floats: the population standard deviation
(numpy default `ddof=0`, divisor `N`). -/
noncomputable def npStd (xs : List ℝ) : ℝ :=
  Real.sqrt (npMean (xs.map fun t => (t - npMean xs) ^ 2))

/-- A `MeasuredValue` object (data.py lines 99-172) together with its
subclass `RepeatedlyMeasuredValue` (lines 175-206): `recorded` is the single
value-error pair stored at `_values[RECORDED]`, and `rawData` is `some` list
exactly when the instance carries the `_raw_data` slot of the subclass
(`hasattr(self, "_raw_data")`). -/
structure MeasuredValue where
  recorded : PyFloat × PyFloat
  unit : String
  name : String
  rawData : Option (List ℝ)

/-- `MeasuredValue.__init__` (data.py lines 107-109). -/
def MeasuredValue.make (value error : PyFloat) (unit name : String) : MeasuredValue :=
  { recorded := (value, error), unit := unit, name := name, rawData := none }

/-- `RepeatedlyMeasuredValue.__init__` (data.py lines 186-190).  Note the
argument slip in the source: `super().__init__(unit, name)` calls
`MeasuredValue.__init__` with `unit` in the `value` slot and `name` in the
`error` slot, so `ExperimentalValue.__init__` receives its defaults and the
final instance has empty `_unit` and `_name`; the temporary `(unit, name)`
pair stored at `_values[RECORDED]` is then overwritten with the sample mean
and population standard deviation. -/
noncomputable def RepeatedlyMeasuredValue.make (xs : List ℝ) (_unit _name : String) :
    MeasuredValue :=
  { recorded := (.fin (npMean xs), .fin (npStd xs))
    unit := ""
    name := ""
    rawData := some xs }

/-- The keyword arguments of the `Measurement` factory, a dictionary with the
two possibly-absent keys `"unit"` and `"name"`. -/
structure Kwargs where
  unit : Option String
  name : Option String

/-- The outcome of a call to the `Measurement` factory: a constructed
instance, the printed invalid-input error (the function then returns `None`,
data.py lines 242-244), or an uncaught `KeyError` naming the missing keyword
key. -/
inductive FactoryResult where
  | ok (v : MeasuredValue)
  | printedError
  | raised (key : String)

/-- The `Measurement` factory (data.py lines 210-244).  Dispatch follows the
source: a single array-like argument, then a single number, then two numbers,
then the error branch.  In each constructing branch the source evaluates
`kwargs["unit"]` and then `kwargs["name"]` unconditionally, so a missing
keyword raises `KeyError` before any instance is built. -/
noncomputable def Measurement (args : List PyObj) (kwargs : Kwargs) : FactoryResult :=
  match args with
  | [.arr xs] =>
    match kwargs.unit with
    | none => .raised "unit"
    | some u =>
      match kwargs.name with
      | none => .raised "name"
      | some n => .ok (RepeatedlyMeasuredValue.make xs u n)
  | [.num x] =>
    match kwargs.unit with
    | none => .raised "unit"
    | some u =>
      match kwargs.name with
      | none => .raised "name"
      | some n => .ok (MeasuredValue.make x (.fin 0) u n)
  | [.num x, .num y] =>
    match kwargs.unit with
    | none => .raised "unit"
    | some u =>
      match kwargs.name with
      | none => .raised "name"
      | some n => .ok (MeasuredValue.make x y u n)
  | _ => .printedError

/-- The argument shapes the `Measurement` factory accepts (data.py lines
236-241): one array-like, one number, or two numbers. -/
def measurementShapeOk : List PyObj → Bool
  | [.arr _] => true
  | [.num _] => true
  | [.num _, .num _] => true
  | _ => false

/-- The outcome of a property-setter call: the state of the object
afterwards, the messages printed, and an uncaught exception if one was
raised. -/
structure SetResult where
  state : MeasuredValue
  printed : List String
  raised : Option String

/-- The invalid-input message of the `value` setter (data.py line 122). -/
def valueSetterMsg : String :=
  "Error: invalid input! You can only set the value of a measurement to a number"

/-- The invalid-input message of the `error` setter (data.py line 140). -/
def errorSetterMsg : String :=
  "Error: invalid input! You can only set the error of a measurement to a positive number"

/-- The data-loss warning of the `value` setter (data.py lines 125-126). -/
def valueMutationWarning : String :=
  "Warning: You are trying to modify the value of a repeated measurement. Doing so has caused you to lose the original list of raw measurement data"

/-- The data-loss warning of the `error` setter (data.py lines 143-144). -/
def errorMutationWarning : String :=
  "Warning: You are trying to modify the uncertainty of a repeated measurement. Doing so has caused you to lose the original list of raw measurement data"

/-- The exception raised by `self.__class__ = MeasuredValue` (data.py lines
127 and 145) on an instance of `RepeatedlyMeasuredValue`: because the
subclass declares `__slots__ = "_raw_data"`, its instance layout differs from
the base class and CPython rejects the class assignment. -/
def classAssignmentTypeErrorMsg : String :=
  "TypeError: class assignment: MeasuredValue object layout differs from RepeatedlyMeasuredValue"

/-- The `value` setter (data.py lines 116-127).  A non-number prints the
error and returns with the state unchanged.  A number updates the stored pair
first; if the instance carries raw data the warning is then printed and the
`self.__class__ = MeasuredValue` statement raises `TypeError` (incompatible
`__slots__` layouts), leaving the raw data in place. -/
def MeasuredValue.setValue (v : MeasuredValue) (inp : PyObj) : SetResult :=
  match inp with
  | .num x =>
    let v1 := { v with recorded := (x, v.recorded.2) }
    match v.rawData with
    | some _ =>
      { state := v1, printed := [valueMutationWarning]
        raised := some classAssignmentTypeErrorMsg }
    | none => { state := v1, printed := [], raised := none }
  | _ => { state := v, printed := [valueSetterMsg], raised := none }

/-- The `error` setter (data.py lines 134-145): accepts a number strictly
greater than zero; any other input prints the error and leaves the state
unchanged.  On a repeated measurement the accepted path then prints the
warning and raises `TypeError` exactly as the `value` setter does. -/
noncomputable def MeasuredValue.setError (v : MeasuredValue) (inp : PyObj) : SetResult :=
  match inp with
  | .num x =>
    if x.pos then
      let v1 := { v with recorded := (v.recorded.1, x) }
      match v.rawData with
      | some _ =>
        { state := v1, printed := [errorMutationWarning]
          raised := some classAssignmentTypeErrorMsg }
      | none => { state := v1, printed := [], raised := none }
    else { state := v, printed := [errorSetterMsg], raised := none }
  | _ => { state := v, printed := [errorSetterMsg], raised := none }

/-- `MeasuredValue._print_value` (data.py lines 168-172), parametrised over
the formatter returned by `printing.get_printer()` (that module is outside
the sources; quantifying over the printer covers every print style and
sig-fig mode).  The infinity check precedes any call to the printer. -/
def MeasuredValue.printValue (printer : PyFloat × PyFloat → String)
    (v : MeasuredValue) : String :=
  match v.recorded.1 with
  | .inf => "inf"
  | _ => printer v.recorded

/-- A `Function` object (data.py lines 247-298).  Its `_values` dict holds
one value-error pair per propagation method; the literal keys module is
outside the sources, and per the spec the three tags are exactly the
propagation-method identifiers, so the dict is modelled as a total map on
`ErrorMethod`.  `errorMethod` mirrors the `_error_method` attribute, which
holds whatever `settings.get_error_method()` returned at construction (an
`EMSlot`, since the settings slot is heterogeneous). -/
structure Function where
  values : ErrorMethod → PyFloat × PyFloat
  errorMethod : EMSlot
  isErrorMethodSpecified : Bool
  unit : String
  name : String

/-- `Function.__init__` (data.py lines 262-289): if an error method is passed
(truthy), it is stored and the flag set; otherwise the flag is cleared and
the current global default is captured into `_error_method`. -/
def Function.make (results : ErrorMethod → PyFloat × PyFloat)
    (unit name : String) (errorMethod : Option ErrorMethod) (cfg : Config) : Function :=
  match errorMethod with
  | some m =>
    { values := results, errorMethod := .em m, isErrorMethodSpecified := true
      unit := unit, name := name }
  | none =>
    { values := results, errorMethod := get_error_method cfg
      isErrorMethodSpecified := false, unit := unit, name := name }

/-- The pair-selection step of `Function._print_value` (data.py lines
292-295): the pinned method if one was specified, otherwise the global
default read at print time.  A `PrintStyle` sitting in the consulted slot
(possible after the buggy `set_print_style`) would miss the three-key dict
and raise `KeyError`, modelled as `none`. -/
def Function.selectedPair (f : Function) (cfg : Config) : Option (PyFloat × PyFloat) :=
  if f.isErrorMethodSpecified then
    match f.errorMethod with
    | .em m => some (f.values m)
    | .ps _ => none
  else
    match get_error_method cfg with
    | .em m => some (f.values m)
    | .ps _ => none

/-- `Function._print_value` (data.py lines 291-298), parametrised over the
formatter as for `MeasuredValue.printValue`. -/
def Function.printValue (f : Function) (cfg : Config)
    (printer : PyFloat × PyFloat → String) : Option String :=
  (f.selectedPair cfg).map fun p =>
    match p.1 with
    | .inf => "inf"
    | _ => printer p

/-- A concrete propagated-results map with three distinct pairs, used to
instantiate the error-method selection theorem. -/
def demoResults : ErrorMethod → PyFloat × PyFloat
  | .DERIVATIVE => (.fin 1, .fin 10)
  | .MIN_MAX => (.fin 2, .fin 20)
  | .MONTE_CARLO => (.fin 3, .fin 30)

/-! ## Theorems for the claims -/

/-- C1: evaluation of the code at the failing input.  `set_print_style` with
the valid input `PrintStyle.LATEX` reports no error, yet `get_print_style`
afterwards still returns `DEFAULT` (not `LATEX`) and the stored error method
has been overwritten with the print style: the setter writes the wrong slot,
contradicting the claim that it sets the print style and leaves the error
method unchanged. -/
theorem set_print_style_writes_error_method_slot :
    (set_print_style (.enumPS .LATEX) defaultConfig).2 = false ∧
    get_print_style (set_print_style (.enumPS .LATEX) defaultConfig).1 = .DEFAULT ∧
    get_print_style (set_print_style (.enumPS .LATEX) defaultConfig).1 ≠ .LATEX ∧
    get_error_method (set_print_style (.enumPS .LATEX) defaultConfig).1 = .ps .LATEX ∧
    get_error_method defaultConfig = .em .DERIVATIVE := by
  decide

/-- C2: evaluation of the code at the failing input.  `Measurement` evaluates
`kwargs["unit"]` and `kwargs["name"]` unconditionally, so calling it without
the keyword arguments raises `KeyError` in every valid argument shape instead
of succeeding; moreover even when the keywords are supplied, the array branch
loses them (the constructed instance has empty unit and name). -/
theorem measurement_kwargs_mandatory :
    Measurement [.num (.fin 12)] { unit := none, name := none } = .raised "unit" ∧
    Measurement [.num (.fin 12), .num (.fin 1)] { unit := none, name := none } =
      .raised "unit" ∧
    Measurement [.arr [1, 2]] { unit := none, name := none } = .raised "unit" ∧
    Measurement [.num (.fin 12)] { unit := some "m", name := none } = .raised "name" ∧
    (RepeatedlyMeasuredValue.make [1, 2] "m" "x").unit = "" ∧
    (RepeatedlyMeasuredValue.make [1, 2] "m" "x").name = "" :=
  ⟨rfl, rfl, rfl, rfl, rfl, rfl⟩

/-- C7: whatever the current configuration is (hence after any sequence of
setter calls), `reset_default_configuration` makes the four getters return
the documented defaults. -/
theorem reset_restores_defaults (c : Config) :
    get_error_method (reset_default_configuration c) = .em .DERIVATIVE ∧
    get_print_style (reset_default_configuration c) = .DEFAULT ∧
    get_sig_fig_mode (reset_default_configuration c) = .AUTOMATIC ∧
    get_sig_fig_value (reset_default_configuration c) = 1 :=
  ⟨rfl, rfl, rfl, rfl⟩

/-- C8: for an input that `int` coerces to a positive integer (covering both
integer and numeric-string inputs), each sig-fig setter stores the value and
switches the mode to `VALUE` resp. `ERROR` without reporting an error; for a
coercion to a non-positive integer, or a failed coercion, each setter reports
an error and leaves the configuration unchanged. -/
theorem sig_fig_setters_spec (c : Config) (inp : SettingInput) (n : ℤ) :
    (pyInt inp = some n → 0 < n →
      set_sig_figs_for_value inp c =
        ({ c with sigFigValue := n, sigFigMode := .VALUE }, false) ∧
      set_sig_figs_for_error inp c =
        ({ c with sigFigValue := n, sigFigMode := .ERROR }, false)) ∧
    (pyInt inp = some n → n ≤ 0 →
      set_sig_figs_for_value inp c = (c, true) ∧
      set_sig_figs_for_error inp c = (c, true)) ∧
    (pyInt inp = none →
      set_sig_figs_for_value inp c = (c, true) ∧
      set_sig_figs_for_error inp c = (c, true)) := by
  have hnle : ∀ m : ℤ, 0 < m → ¬ m ≤ 0 := fun m hm => by omega
  refine ⟨fun h hpos => ?_, fun h hle => ?_, fun h => ?_⟩
  · constructor <;>
      simp [set_sig_figs_for_value, set_sig_figs_for_error, h, hnle n hpos]
  · constructor <;>
      simp [set_sig_figs_for_value, set_sig_figs_for_error, h, hle]
  · constructor <;>
      simp [set_sig_figs_for_value, set_sig_figs_for_error, h]

/-- C8 witness: the setters evaluated at the numeric string three, at zero,
at minus two, and at a non-numeric string, starting from the default
configuration. -/
theorem sig_fig_setters_spec_witness :
    set_sig_figs_for_value (.str "3") defaultConfig =
      ({ defaultConfig with sigFigValue := 3, sigFigMode := .VALUE }, false) ∧
    set_sig_figs_for_error (.str "3") defaultConfig =
      ({ defaultConfig with sigFigValue := 3, sigFigMode := .ERROR }, false) ∧
    set_sig_figs_for_value (.int 0) defaultConfig = (defaultConfig, true) ∧
    set_sig_figs_for_error (.int (-2)) defaultConfig = (defaultConfig, true) ∧
    set_sig_figs_for_value (.str "abc") defaultConfig = (defaultConfig, true) := by
  have h1 := sig_fig_setters_spec defaultConfig (.str "3") 3
  have h2 := sig_fig_setters_spec defaultConfig (.int 0) 0
  have h3 := sig_fig_setters_spec defaultConfig (.int (-2)) (-2)
  have h4 := sig_fig_setters_spec defaultConfig (.str "abc") 0
  exact ⟨(h1.1 (by decide) (by decide)).1, (h1.1 (by decide) (by decide)).2,
    (h2.2.1 (by decide) (by decide)).1, (h3.2.1 (by decide) (by decide)).2,
    (h4.2.2 (by decide)).1⟩

/-- C6 counterexample: the two-argument factory call with uncertainty minus
one succeeds and stores the pair unchanged, so a constructed value holds a
strictly negative uncertainty. -/
theorem measurement_negative_error_counterexample :
    Measurement [.num (.fin 5), .num (.fin (-1))] { unit := some "", name := some "" } =
      .ok (MeasuredValue.make (.fin 5) (.fin (-1)) "" "") ∧
    (MeasuredValue.make (.fin 5) (.fin (-1)) "" "").recorded.2 = .fin (-1) ∧
    ((-1 : ℝ) < 0) :=
  ⟨rfl, rfl, by norm_num⟩

/-- C3: the factory dispatch.  One number gives a `MeasuredValue` with that
value and uncertainty zero; two numbers give a `MeasuredValue` holding
exactly that pair; a non-empty array gives a `RepeatedlyMeasuredValue` whose
value is the arithmetic mean and whose uncertainty is the population
standard deviation (its square is the squared-deviation sum divided by `N`,
the list length, not `N - 1`); any other argument shape reports an error and
returns nothing.  The keyword arguments are supplied because the source
demands them (see the C2 theorem). -/
theorem measurement_dispatch (u n : String) (x y : PyFloat) (xs : List ℝ)
    (_hxs : xs ≠ []) :
    Measurement [.num x] { unit := some u, name := some n } =
      .ok (MeasuredValue.make x (.fin 0) u n) ∧
    Measurement [.num x, .num y] { unit := some u, name := some n } =
      .ok (MeasuredValue.make x y u n) ∧
    Measurement [.arr xs] { unit := some u, name := some n } =
      .ok (RepeatedlyMeasuredValue.make xs u n) ∧
    (RepeatedlyMeasuredValue.make xs u n).recorded =
      (.fin (npMean xs), .fin (npStd xs)) ∧
    (RepeatedlyMeasuredValue.make xs u n).rawData = some xs ∧
    npMean xs = xs.sum / xs.length ∧
    npStd xs ^ 2 = (xs.map fun t => (t - npMean xs) ^ 2).sum / xs.length ∧
    0 ≤ npStd xs ∧
    (∀ (kw : Kwargs) (l : List PyObj), measurementShapeOk l = false →
      Measurement l kw = .printedError) := by
  have hvar : (0 : ℝ) ≤ npMean (xs.map fun t => (t - npMean xs) ^ 2) := by
    apply div_nonneg _ (Nat.cast_nonneg _)
    apply List.sum_nonneg
    intro a ha
    obtain ⟨t, _, rfl⟩ := List.mem_map.mp ha
    positivity
  have hsq : npStd xs ^ 2 = (xs.map fun t => (t - npMean xs) ^ 2).sum / xs.length := by
    rw [npStd, Real.sq_sqrt hvar, npMean, List.length_map]
  refine ⟨rfl, rfl, rfl, rfl, rfl, rfl, hsq, Real.sqrt_nonneg _, ?_⟩
  intro kw l hl
  cases l with
  | nil => rfl
  | cons a t =>
    cases t with
    | nil =>
      cases a with
      | num x1 => simp [measurementShapeOk] at hl
      | arr xs1 => simp [measurementShapeOk] at hl
      | str s => rfl
      | other => rfl
    | cons b t2 =>
      cases t2 with
      | nil =>
        cases a with
        | num x1 =>
          cases b with
          | num x2 => simp [measurementShapeOk] at hl
          | str s => rfl
          | arr l2 => rfl
          | other => rfl
        | str s => rfl
        | arr l2 => rfl
        | other => rfl
      | cons c2 t3 => cases a <;> cases b <;> rfl

/-- C3 witness: the factory at the sample list one-three produces the
repeated measurement with mean two and population standard deviation one,
and at a lone string argument it reports the shape error. -/
theorem measurement_dispatch_witness :
    Measurement [.arr [1, 3]] { unit := some "m", name := some "x" } =
      .ok (RepeatedlyMeasuredValue.make [1, 3] "m" "x") ∧
    (RepeatedlyMeasuredValue.make [1, 3] "m" "x").recorded = (.fin 2, .fin 1) ∧
    Measurement [.str "bad"] { unit := some "m", name := some "x" } = .printedError := by
  have h := measurement_dispatch "m" "x" (.fin 0) (.fin 0) [1, 3] (by simp)
  have hm : npMean [1, 3] = 2 := by
    norm_num [npMean]
  have hs : npStd [1, 3] = 1 := by
    rw [npStd]
    simp only [hm]
    norm_num [npMean, Real.sqrt_one]
  refine ⟨h.2.2.1, ?_,
    h.2.2.2.2.2.2.2.2 { unit := some "m", name := some "x" } [.str "bad"] rfl⟩
  rw [h.2.2.2.1, hm, hs]

/-- C4: error-method selection at print time.  If a method was specified at
construction, the selected pair is that method's pair regardless of the
global configuration at construction or at print time; if none was
specified, the selected pair is the one of whichever method is the global
default at the moment of printing, independent of the configuration captured
at construction time. -/
theorem function_error_method_selection
    (results : ErrorMethod → PyFloat × PyFloat) (u n : String)
    (m m1 : ErrorMethod) (c0 c1 : Config) (h : get_error_method c1 = .em m1) :
    Function.selectedPair (Function.make results u n (some m) c0) c1 =
      some (results m) ∧
    Function.selectedPair (Function.make results u n none c0) c1 =
      some (results m1) := by
  constructor
  · rfl
  · simp [Function.selectedPair, Function.make, h]

/-- C4 witness: a function pinned to `MIN_MAX` selects the `MIN_MAX` pair
even after the global default is switched to `MONTE_CARLO`, while an
unpinned function built under the default `DERIVATIVE` selects the
`MONTE_CARLO` pair at that later configuration. -/
theorem function_error_method_selection_witness :
    Function.selectedPair
        (Function.make demoResults "" "" (some .MIN_MAX) defaultConfig)
        ((set_error_method (.enumEM .MONTE_CARLO) defaultConfig).1) =
      some (.fin 2, .fin 20) ∧
    Function.selectedPair
        (Function.make demoResults "" "" none defaultConfig)
        ((set_error_method (.enumEM .MONTE_CARLO) defaultConfig).1) =
      some (.fin 3, .fin 30) := by
  have h := function_error_method_selection demoResults "" "" .MIN_MAX .MONTE_CARLO
    defaultConfig ((set_error_method (.enumEM .MONTE_CARLO) defaultConfig).1) rfl
  exact h

/-- C5: evaluation of the code at the failing input.  On a repeated
measurement, assigning a number to `value` updates the stored pair and
prints the data-loss warning, but the demotion `self.__class__ =
MeasuredValue` then raises `TypeError` (the subclass declares `__slots__`,
so the instance layouts are incompatible) and the raw data is NOT discarded;
the `error` setter fails the same way. -/
theorem repeated_mutation_raises_type_error :
    ((RepeatedlyMeasuredValue.make [5.6, 4.8, 6.1, 4.9, 5.1] "m" "x").setValue
        (.num (.fin 5))).raised = some classAssignmentTypeErrorMsg ∧
    ((RepeatedlyMeasuredValue.make [5.6, 4.8, 6.1, 4.9, 5.1] "m" "x").setValue
        (.num (.fin 5))).printed = [valueMutationWarning] ∧
    ((RepeatedlyMeasuredValue.make [5.6, 4.8, 6.1, 4.9, 5.1] "m" "x").setValue
        (.num (.fin 5))).state.rawData = some [5.6, 4.8, 6.1, 4.9, 5.1] ∧
    ((RepeatedlyMeasuredValue.make [5.6, 4.8, 6.1, 4.9, 5.1] "m" "x").setError
        (.num (.fin 5))).raised = some classAssignmentTypeErrorMsg := by
  refine ⟨rfl, rfl, rfl, ?_⟩
  have hpos : PyFloat.pos (.fin 5) := by norm_num [PyFloat.pos]
  simp [MeasuredValue.setError, RepeatedlyMeasuredValue.make, hpos]

/-- C9: a stored value equal to positive infinity prints as exactly the
string `"inf"`: for a measured value, under every formatter (hence every
print style and sig-fig mode); and for a function, under every
configuration and formatter, whenever the selected pair (of whichever error
method is chosen) has value infinity. -/
theorem print_value_inf (printer : PyFloat × PyFloat → String) (v : MeasuredValue)
    (f : Function) (c : Config) (p : PyFloat × PyFloat)
    (hv : v.recorded.1 = .inf) (hf : f.selectedPair c = some p) (hp : p.1 = .inf) :
    MeasuredValue.printValue printer v = "inf" ∧
    Function.printValue f c printer = some "inf" := by
  constructor
  · simp [MeasuredValue.printValue, hv]
  · obtain ⟨p1, p2⟩ := p
    simp only at hp
    subst hp
    simp [Function.printValue, hf]

/-- C9 witness: a measured value with value infinity and a function whose
three pairs all have value infinity, printed with an arbitrary fixed
formatter under the default configuration. -/
theorem print_value_inf_witness :
    MeasuredValue.printValue (fun _ => "X") (MeasuredValue.make .inf (.fin 0) "" "") =
      "inf" ∧
    Function.printValue (Function.make (fun _ => (.inf, .fin 0)) "" "" none defaultConfig)
      defaultConfig (fun _ => "X") = some "inf" :=
  print_value_inf (fun _ => "X") (MeasuredValue.make .inf (.fin 0) "" "")
    (Function.make (fun _ => (.inf, .fin 0)) "" "" none defaultConfig) defaultConfig
    (.inf, .fin 0) rfl rfl rfl

/-- C10: the `error` setter accepts exactly the strictly positive numbers:
a positive number is stored as the new uncertainty, while zero, a negative
number, or a non-number is rejected with the error message and the object
unchanged; and an uncertainty of exactly zero is nevertheless constructible
through the one-argument factory. -/
theorem error_setter_strictly_positive (v : MeasuredValue) (u n : String)
    (x : PyFloat) (inp : PyObj) (hraw : v.rawData = none) :
    (x.pos → v.setError (.num x) =
      { state := { v with recorded := (v.recorded.1, x) }, printed := [],
        raised := none }) ∧
    (¬ x.pos → v.setError (.num x) =
      { state := v, printed := [errorSetterMsg], raised := none }) ∧
    ((∀ y, inp ≠ .num y) → v.setError inp =
      { state := v, printed := [errorSetterMsg], raised := none }) ∧
    Measurement [.num x] { unit := some u, name := some n } =
      .ok (MeasuredValue.make x (.fin 0) u n) := by
  refine ⟨fun hp => ?_, fun hp => ?_, fun hinp => ?_, rfl⟩
  · simp [MeasuredValue.setError, hp, hraw]
  · simp [MeasuredValue.setError, hp]
  · cases inp with
    | num y => exact absurd rfl (hinp y)
    | str s => rfl
    | arr xs => rfl
    | other => rfl

/-- C10 witness: setting the error to two succeeds and stores two; setting
it to zero or to a string is rejected with the object unchanged; the
one-argument factory constructs uncertainty zero. -/
theorem error_setter_strictly_positive_witness :
    (MeasuredValue.make (.fin 5) (.fin 1) "" "").setError (.num (.fin 2)) =
      { state := MeasuredValue.make (.fin 5) (.fin 2) "" "", printed := [],
        raised := none } ∧
    (MeasuredValue.make (.fin 5) (.fin 1) "" "").setError (.num (.fin 0)) =
      { state := MeasuredValue.make (.fin 5) (.fin 1) "" "",
        printed := [errorSetterMsg], raised := none } ∧
    (MeasuredValue.make (.fin 5) (.fin 1) "" "").setError (.str "abc") =
      { state := MeasuredValue.make (.fin 5) (.fin 1) "" "",
        printed := [errorSetterMsg], raised := none } ∧
    Measurement [.num (.fin 7)] { unit := some "m", name := some "L" } =
      .ok (MeasuredValue.make (.fin 7) (.fin 0) "m" "L") := by
  have h1 := error_setter_strictly_positive (MeasuredValue.make (.fin 5) (.fin 1) "" "")
    "m" "L" (.fin 2) (.str "abc") rfl
  have h2 := error_setter_strictly_positive (MeasuredValue.make (.fin 5) (.fin 1) "" "")
    "m" "L" (.fin 0) .other rfl
  have h3 := error_setter_strictly_positive (MeasuredValue.make (.fin 5) (.fin 1) "" "")
    "m" "L" (.fin 7) .other rfl
  refine ⟨h1.1 (by norm_num [PyFloat.pos]), h2.2.1 (by simp [PyFloat.pos]),
    h1.2.2.1 (fun y => by simp), h3.2.2.2⟩

/-- C6 amended: the two-argument factory stores the given pair without
validating the uncertainty (so a negative stored uncertainty is
constructible); the invariant holds on the other paths: one-argument
construction stores uncertainty zero, array construction stores the
non-negative population standard deviation, a successful `error` setter call
stores the given strictly positive uncertainty, and the `value` setter never
changes the uncertainty. -/
theorem uncertainty_nonneg_amended (v : MeasuredValue) (x y : PyFloat)
    (xs : List ℝ) (u n : String) :
    Measurement [.num x] { unit := some u, name := some n } =
      .ok (MeasuredValue.make x (.fin 0) u n) ∧
    (RepeatedlyMeasuredValue.make xs u n).recorded.2 = .fin (npStd xs) ∧
    0 ≤ npStd xs ∧
    (y.pos → ((v.setError (.num y)).state.recorded.2 = y ∧ y.pos)) ∧
    (∀ inp : PyObj, (v.setValue inp).state.recorded.2 = v.recorded.2) ∧
    Measurement [.num x, .num y] { unit := some u, name := some n } =
      .ok (MeasuredValue.make x y u n) := by
  refine ⟨rfl, rfl, Real.sqrt_nonneg _, fun hp => ⟨?_, hp⟩, fun inp => ?_, rfl⟩
  · cases hr : v.rawData <;> simp [MeasuredValue.setError, hp, hr]
  · cases inp with
    | num x2 => cases hr : v.rawData <;> simp [MeasuredValue.setValue, hr]
    | str s => rfl
    | arr l2 => rfl
    | other => rfl

/-- C6 amended witness: a successful error-setter call stores the positive
uncertainty two, and the standard deviation of the sample list one-three is
non-negative. -/
theorem uncertainty_nonneg_amended_witness :
    ((MeasuredValue.make (.fin 5) (.fin 1) "" "").setError
        (.num (.fin 2))).state.recorded.2 = .fin 2 ∧
    0 ≤ npStd [1, 3] ∧
    Measurement [.num (.fin 5), .num (.fin 2)] { unit := some "", name := some "" } =
      .ok (MeasuredValue.make (.fin 5) (.fin 2) "" "") := by
  have h := uncertainty_nonneg_amended (MeasuredValue.make (.fin 5) (.fin 1) "" "")
    (.fin 5) (.fin 2) [1, 3] "" ""
  exact ⟨(h.2.2.2.1 (by norm_num [PyFloat.pos])).1, h.2.2.1, h.2.2.2.2.2⟩

end Qexpy
